import Mathlib

/-!
Verification development for the categorisation-engines repository
(Python client for a transaction-categorisation vendor and for the Tink
personal-finance platform).

Shallow embedding notes.
The Python code is dynamically typed and effectful; it is embedded here as
follows.
* Machine-level Python values that matter to the verified claims (strings
  and lists of strings held in record dictionaries) are embedded as the
  inductive type PyValue; dictionaries are association lists with Python
  dict update semantics (dictSet).
* A slot that Python may leave holding either an enum member or a plain
  string (the status slot of TinkModelResult) is embedded as StatusValue.
* Raised exceptions are embedded as the error side of Except with the
  inductive PyError; a constructor carries the data the Python exception
  object carries (for instance the name of the missing field for the
  AttributeError raised by TinkEntity.init, or the partial result list
  carried by UserNotExistingError).  Referencing a Python local variable
  that was never assigned raises UnboundLocalError; the embedding models
  such locals as Option values and surfaces the reference as
  PyError.UnboundLocalError.
* The vendor HTTP boundary is opaque: one run of the OAuth2 flow is
  embedded relative to an OAuthEnv recording the status code and parsed
  JSON body that the network returned for each of the three endpoints the
  flow can call.  The set of endpoint calls actually performed during the
  run is returned as the trace of the run.
-/

namespace Categorisation

/-- Python dict values occurring in the embedded records: strings as read
from CSV/JSON input, and lists of strings produced by the flags/payloadTags
remapping in TinkAccount.adjust_data. -/
inductive PyValue where
  | str (s : String)
  | list (l : List String)
deriving DecidableEq

/-- A Python dictionary from field name to value, as an association list in
insertion order. -/
abbrev Data := List (String × PyValue)

/-- Python dict assignment d[k] = v: replace the value of the (unique)
occurrence of the key in place when the key exists, otherwise append the key
at the end (insertion order semantics). -/
def dictSet (d : Data) (k : String) (v : PyValue) : Data :=
  match d with
  | [] => [(k, v)]
  | (a, b) :: rest => if a = k then (k, v) :: rest else (a, b) :: dictSet rest k v

/-- Enumeration config.HTTPStatusCode: http status code groups.  The source
docstrings declare each group inclusive of its upper bound (2xx = codes
between >= 200 and <= 299, and so on). -/
inductive HTTPStatusCode where
  | Code2xx
  | Code4xx
  | Code5xx
deriving DecidableEq

/-- Enumeration config.EntityType. -/
inductive EntityType where
  | User
  | Account
  | Transaction
  | Log
deriving DecidableEq

/-- api.TinkAPIResponse.http_status: band membership test for the response
status code.  Python code: `if not group: return False`, then for each group
`if self._status_code in range(a, b)` where range(a, b) contains a..b-1.
Embedded over the status code of the response and the requested group. -/
def http_status (status_code : Int) (group : Option HTTPStatusCode) : Bool :=
  match group with
  | none => false
  | some HTTPStatusCode.Code2xx =>
      if 200 ≤ status_code ∧ status_code < 299 then true else false
  | some HTTPStatusCode.Code4xx =>
      if 400 ≤ status_code ∧ status_code < 499 then true else false
  | some HTTPStatusCode.Code5xx =>
      if 500 ≤ status_code ∧ status_code < 599 then true else false

/-- Enumeration model.TinkModelResultStatus. -/
inductive TinkModelResultStatus where
  | Success
  | Warning
  | Error
  | Exception
  | Undefined
deriving DecidableEq

/-- The dynamically typed status slot of model.TinkModelResult: normally a
TinkModelResultStatus member, but TinkModelResultList.first/last construct a
placeholder result passing the plain string Unbound as the status. -/
inductive StatusValue where
  | enum (s : TinkModelResultStatus)
  | str (s : String)
deriving DecidableEq

/-- Fieldnames tuple of api.OAuth2AuthenticationTokenResponse. -/
def authTokenFieldnames : List String :=
  ["access_token", "token_type", "expires_in", "scope", "id_hint"]

/-- Fieldnames tuple of api.OAuth2AuthorizeResponse: ('code',) plus the base
class fieldnames ('errorMessage', 'errorCode'). -/
def authorizeFieldnames : List String :=
  ["code", "errorMessage", "errorCode"]

/-- api.OAuth2AuthenticationTokenResponse: status code, extracted data
fields and the access_token attribute.  data is populated (json filtered to
the declared fieldnames) and access_token extracted only when the status
code is exactly 200. -/
structure OAuth2AuthenticationTokenResponse where
  status_code : Int
  data : List (String × String)
  access_token : Option String
deriving DecidableEq

/-- Constructor of api.OAuth2AuthenticationTokenResponse from the network
observation (status code and parsed JSON body). -/
def mkAuthTokenResponse (status_code : Int) (json : List (String × String)) :
    OAuth2AuthenticationTokenResponse :=
  if status_code = 200 then
    let d := json.filter (fun kv => authTokenFieldnames.contains kv.1)
    { status_code := status_code, data := d, access_token := d.lookup "access_token" }
  else
    { status_code := status_code, data := [], access_token := none }

/-- api.OAuth2AuthorizeResponse: status code, extracted data fields and the
code attribute.  data is populated unconditionally (json filtered to the
declared fieldnames); the code attribute is extracted only when the status
code is exactly 200. -/
structure OAuth2AuthorizeResponse where
  status_code : Int
  data : List (String × String)
  code : Option String
deriving DecidableEq

/-- Constructor of api.OAuth2AuthorizeResponse from the network observation
(status code and parsed JSON body). -/
def mkAuthorizeResponse (status_code : Int) (json : List (String × String)) :
    OAuth2AuthorizeResponse :=
  let d := json.filter (fun kv => authorizeFieldnames.contains kv.1)
  { status_code := status_code
    data := d
    code := if status_code = 200 then d.lookup "code" else none }

/-- The response object held by a model.TinkModelResult: one of the typed
API response wrappers, or api.DummyResponse for a result constructed without
a response. -/
inductive FlowResponse where
  | auth (r : OAuth2AuthenticationTokenResponse)
  | authz (r : OAuth2AuthorizeResponse)
  | dummy
deriving DecidableEq

/-- Python attribute access response.access_token as performed by the flow
on the result of the authorize-client step (always an
OAuth2AuthenticationTokenResponse there). -/
def FlowResponse.access_token : FlowResponse → Option String
  | FlowResponse.auth r => r.access_token
  | _ => none

/-- Python attribute access response.code as performed by the flow on the
result of the grant-user-access step (always an OAuth2AuthorizeResponse
there). -/
def FlowResponse.code : FlowResponse → Option String
  | FlowResponse.authz r => r.code
  | _ => none

/-- Discriminator: is this response an OAuth2AuthenticationTokenResponse
(the response type produced by the authorize-client step)? -/
def FlowResponse.isAuthToken : FlowResponse → Bool
  | FlowResponse.auth _ => true
  | _ => false

/-- model.TinkModelResult: wrapper for the outcome of one endpoint call. -/
structure TinkModelResult where
  status : StatusValue
  response : FlowResponse
  action : String
  msg : String
  is_important : Bool
deriving DecidableEq

/-- model.TinkModelResult.init: the constructor applies a default action
label (the class and method name) when the action argument is empty. -/
def TinkModelResult.init (status : StatusValue) (response : FlowResponse)
    (action : String) (msg : String) (is_important : Bool) : TinkModelResult :=
  { status := status
    response := response
    action := if action = "" then "TinkModelResult.__init__" else action
    msg := msg
    is_important := is_important }

/-- model.TinkModelResultList: ordered sequence of endpoint call results
plus an action label and a message. -/
structure TinkModelResultList where
  results : List TinkModelResult
  action : String
  msg : String
deriving DecidableEq

/-- model.TinkModelResultList.init: starts from the optional first result
(ignored when absent), defaulting the action label like the result
constructor does. -/
def TinkModelResultList.init (result : Option TinkModelResult)
    (action : String) (msg : String) : TinkModelResultList :=
  { results := match result with
      | some r => [r]
      | none => []
    action := if action = "" then "TinkModelResultList.__init__" else action
    msg := msg }

/-- model.TinkModelResultList.append: appends a single TinkModelResult, or
flattens in the results of another TinkModelResultList. -/
def TinkModelResultList.append (self : TinkModelResultList)
    (result : Sum TinkModelResult TinkModelResultList) : TinkModelResultList :=
  match result with
  | Sum.inl r => { self with results := self.results ++ [r] }
  | Sum.inr l => { self with results := self.results ++ l.results }

/-- model.TinkModelResultList.count: number of contained results whose
status equals the given TinkModelResultStatus member (Python == between a
status slot and an enum member; a string status slot compares unequal). -/
def TinkModelResultList.count (self : TinkModelResultList)
    (status : TinkModelResultStatus) : Nat :=
  (self.results.filter (fun e => e.status == StatusValue.enum status)).length

/-- model.TinkModelResultList.status: overall Success when every contained
result counts as Success, otherwise Warning. -/
def TinkModelResultList.status (self : TinkModelResultList) : TinkModelResultStatus :=
  if self.count TinkModelResultStatus.Success = self.results.length then
    TinkModelResultStatus.Success
  else
    TinkModelResultStatus.Warning

/-- model.TinkModelResultList.first: first element, or a placeholder
TinkModelResult constructed with the plain string Unbound as status when the
list is empty. -/
def TinkModelResultList.first (self : TinkModelResultList) : TinkModelResult :=
  match self.results with
  | [] => TinkModelResult.init (StatusValue.str "Unbound") FlowResponse.dummy "" "" false
  | r :: _ => r

/-- model.TinkModelResultList.last: last element, or the same placeholder as
first when the list is empty. -/
def TinkModelResultList.last (self : TinkModelResultList) : TinkModelResult :=
  match self.results.getLast? with
  | some r => r
  | none => TinkModelResult.init (StatusValue.str "Unbound") FlowResponse.dummy "" "" false

/-- Embedded Python exceptions.  Each constructor carries the data of the
corresponding Python exception object: the AttributeError raised by
TinkEntity.init carries the name of the missing field (its Python message is
the f-string naming that field), KeyError carries the missing key,
RuntimeError the unmapped-fields text, UserNotExistingError its message text
and the result list handed to the caller, UnboundLocalError the name of the
local variable referenced before assignment, and ModuleAttributeError the
attribute name looked up on the exceptions module and not found there. -/
inductive PyError where
  | AttributeFieldError (field : String)
  | KeyError (key : String)
  | RuntimeErrorUnmapped (fields_unmapped : String)
  | UserNotExistingError (text : String) (result_list : TinkModelResultList)
  | UnboundLocalError (var : String)
  | ModuleAttributeError (name : String)
deriving DecidableEq

/-! ### OAuth2 flow orchestrator (model.TinkModel) -/

/-- The three vendor OAuth endpoints the flow can call. -/
inductive ApiCall where
  | authorizeClientAccess
  | grantUserAccess
  | getOauthAccessToken
deriving DecidableEq

/-- One run of the flow is embedded relative to the responses the opaque
network boundary returns for each endpoint: status code and parsed JSON
body per endpoint. -/
structure OAuthEnv where
  authorize_status : Int
  authorize_json : List (String × String)
  grant_status : Int
  grant_json : List (String × String)
  token_status : Int
  token_json : List (String × String)
deriving DecidableEq

/-- api.OAuthService.authorize_client_access: performs the network call and
wraps the observation in an OAuth2AuthenticationTokenResponse. -/
def OAuthService.authorize_client_access (env : OAuthEnv) :
    OAuth2AuthenticationTokenResponse :=
  mkAuthTokenResponse env.authorize_status env.authorize_json

/-- api.OAuthService.grant_user_access: performs the network call and wraps
the observation in an OAuth2AuthorizeResponse. -/
def OAuthService.grant_user_access (env : OAuthEnv) : OAuth2AuthorizeResponse :=
  mkAuthorizeResponse env.grant_status env.grant_json

/-- api.OAuthService.get_oauth_access_token: performs the network call and
wraps the observation in an OAuth2AuthenticationTokenResponse. -/
def OAuthService.get_oauth_access_token (env : OAuthEnv) :
    OAuth2AuthenticationTokenResponse :=
  mkAuthTokenResponse env.token_status env.token_json

/-- Python str() of an optional string as interpolated into the
user-does-not-exist message (None prints as the word None). -/
def pyStrOpt : Option String → String
  | none => "None"
  | some s => s

/-- Message text of the user-does-not-exist condition raised by
model.TinkModel.grant_user_access on a 404. -/
def userNotExistText (ext_user_id : Option String) : String :=
  "User ext_user_id:" ++ pyStrOpt ext_user_id ++ " does not exist"

/-- model.TinkModel._authorize_client: calls the authorize endpoint; the
result status is Success when the response status code passes the 2xx band
test, otherwise Error.  Returns a one-element result list. -/
def TinkModel.authorize_client (env : OAuthEnv) : TinkModelResultList :=
  let response := OAuthService.authorize_client_access env
  let result_status :=
    if http_status response.status_code (some HTTPStatusCode.Code2xx) then
      TinkModelResultStatus.Success
    else
      TinkModelResultStatus.Error
  TinkModelResultList.init
    (some (TinkModelResult.init (StatusValue.enum result_status)
      (FlowResponse.auth response) "" "" false)) "" ""

/-- model.TinkModel._grant_user_access: on status 200 reads the code out of
the response data (a missing code key raises KeyError) and returns a
Success result list; on status 404 raises UserNotExistingError carrying a
freshly constructed one-element result list holding only the Exception
result of this step; otherwise returns an Error result list. -/
def TinkModel.grant_user_access (env : OAuthEnv) (ext_user_id : Option String) :
    Except PyError TinkModelResultList :=
  let response := OAuthService.grant_user_access env
  if response.status_code = 200 then
    match response.data.lookup "code" with
    | none => Except.error (PyError.KeyError "code")
    | some _ =>
        Except.ok (TinkModelResultList.init
          (some (TinkModelResult.init (StatusValue.enum TinkModelResultStatus.Success)
            (FlowResponse.authz response) "" "" false)) "" "")
  else if response.status_code = 404 then
    let text := userNotExistText ext_user_id
    let rl := TinkModelResultList.init
      (some (TinkModelResult.init (StatusValue.enum TinkModelResultStatus.Exception)
        (FlowResponse.authz response) "Grant user access" text false)) "" ""
    Except.error (PyError.UserNotExistingError text rl)
  else
    Except.ok (TinkModelResultList.init
      (some (TinkModelResult.init (StatusValue.enum TinkModelResultStatus.Error)
        (FlowResponse.authz response) "" "" false)) "" "")

/-- model.TinkModel._get_oauth2_access_token: Success on status 200,
otherwise Error; one-element result list. -/
def TinkModel.get_oauth2_access_token (env : OAuthEnv) : TinkModelResultList :=
  let response := OAuthService.get_oauth_access_token env
  let result_status :=
    if response.status_code = 200 then
      TinkModelResultStatus.Success
    else
      TinkModelResultStatus.Error
  TinkModelResultList.init
    (some (TinkModelResult.init (StatusValue.enum result_status)
      (FlowResponse.auth response) "" "" false)) "" ""

deriving instance DecidableEq for Except

/-- Outcome of one run of the flow: the list of endpoint calls actually
performed, in order, and either the returned result list or the exception
that escaped. -/
structure FlowRun where
  trace : List ApiCall
  outcome : Except PyError TinkModelResultList
deriving DecidableEq

/-- model.TinkModel._oauth2_client_credentials_flow, translated statement by
statement.  The Python locals client_access_token and code are assigned only
inside the success branches after steps 1 and 2; they are embedded as Option
values whose none case reproduces the UnboundLocalError Python raises when
the next statement references the never-assigned local (the reference occurs
while evaluating the arguments of the next call, so that call is not
performed).  On step-1 success the step-1 result list is appended a second
time (lines 203 and 210 of model.py both append rl). -/
def TinkModel.oauth2_client_credentials_flow (env : OAuthEnv)
    (ext_user_id : Option String) : FlowRun :=
  let result_list := TinkModelResultList.init none
    "TinkModel._oauth2_client_credentials_flow" "OAuth client credentials access flow"
  let rl := TinkModel.authorize_client env
  let result_list := result_list.append (Sum.inr rl)
  let client_access_token? : Option (Option String) :=
    if rl.last.status == StatusValue.enum TinkModelResultStatus.Success then
      some rl.last.response.access_token
    else
      none
  let result_list :=
    if rl.last.status == StatusValue.enum TinkModelResultStatus.Success then
      result_list.append (Sum.inr rl)
    else
      result_list
  match client_access_token? with
  | none =>
      { trace := [ApiCall.authorizeClientAccess]
        outcome := Except.error (PyError.UnboundLocalError "client_access_token") }
  | some _ =>
      match TinkModel.grant_user_access env ext_user_id with
      | Except.error e =>
          { trace := [ApiCall.authorizeClientAccess, ApiCall.grantUserAccess]
            outcome := Except.error e }
      | Except.ok rl2 =>
          let result_list := result_list.append (Sum.inr rl2)
          let code? : Option (Option String) :=
            if rl2.last.status == StatusValue.enum TinkModelResultStatus.Success then
              some rl2.last.response.code
            else
              none
          match code? with
          | none =>
              { trace := [ApiCall.authorizeClientAccess, ApiCall.grantUserAccess]
                outcome := Except.error (PyError.UnboundLocalError "code") }
          | some _ =>
              let rl3 := TinkModel.get_oauth2_access_token env
              let result_list := result_list.append (Sum.inr rl3)
              { trace := [ApiCall.authorizeClientAccess, ApiCall.grantUserAccess,
                  ApiCall.getOauthAccessToken]
                outcome := Except.ok result_list }

/-- The result list a raised UserNotExistingError carries, when the run
ended in one. -/
def FlowRun.carriedResultList : FlowRun → Option TinkModelResultList
  | { outcome := Except.error (PyError.UserNotExistingError _ rl), .. } => some rl
  | _ => none

/-! ### Record-to-Entity adapter (data.TinkEntity and subclasses) -/

/-- data.TinkDAO.fields_user_src_in: mandatory input fields of a user
record. -/
def fields_user_src_in : List String :=
  ["userExternalId", "label", "market", "locale"]

/-- data.TinkDAO.fields_acc_src_in: mandatory input fields of an account
record. -/
def fields_acc_src_in : List String :=
  ["userExternalId", "externalId", "availableCredit", "balance",
   "name", "type", "flags", "number", "reservedAmount", "payloadTags"]

/-- data.TinkDAO.fields_acc_map: account fields subject to remapping. -/
def fields_acc_map : List String := ["flags", "payload"]

/-- data.TinkDAO.fields_acc_add: account fields injected during adjustment
when listed among the entity fields. -/
def fields_acc_add : List String := ["payloadCreated"]

/-- data.TinkDAO.fields_acc_api_in: account fields sent to the ingestion
endpoint. -/
def fields_acc_api_in : List String :=
  ["externalId", "availableCredit", "balance", "name", "type", "flags",
   "number", "reservedAmount", "payloadTags", "payloadCreated"]

/-- Helper for the comma split: walks the characters, cutting at every
comma (Python str.split with an explicit separator keeps empty pieces). -/
def splitCommaAux (cs : List Char) (acc : List Char) : List (List Char) :=
  match cs with
  | [] => [acc.reverse]
  | c :: rest =>
      if c = ',' then
        acc.reverse :: splitCommaAux rest []
      else
        splitCommaAux rest (c :: acc)

/-- Python str.split with separator comma, over the string characters. -/
def pySplitCommaStr (s : String) : List String :=
  (splitCommaAux s.toList []).map (fun cs => String.mk cs)

/-- Python value.split on a comma, as applied by the flags remapping: a
string splits; a list has no split attribute and raises AttributeError. -/
def pySplitComma : PyValue → Except PyError (List String)
  | PyValue.str s => Except.ok (pySplitCommaStr s)
  | PyValue.list _ => Except.error (PyError.AttributeFieldError "split")

/-- The per-field loop of data.TinkAccount.adjust_data: walks the entity
fields; a field listed in fields_acc_map is either remapped (flags and
payloadTags are split on commas; the subscript raises KeyError when the
field is absent from the data) or recorded in the unmapped-fields text. -/
def accAdjustLoop (fields : List String) (d : Data) (unmapped : String) :
    Except PyError (Data × String) :=
  match fields with
  | [] => Except.ok (d, unmapped)
  | field :: rest =>
      if fields_acc_map.contains field then
        if field = "flags" then
          match d.lookup field with
          | none => Except.error (PyError.KeyError field)
          | some v =>
              match pySplitComma v with
              | Except.error e => Except.error e
              | Except.ok l => accAdjustLoop rest (dictSet d field (PyValue.list l)) unmapped
        else if field = "payloadTags" then
          match d.lookup field with
          | none => Except.error (PyError.KeyError field)
          | some v =>
              match pySplitComma v with
              | Except.error e => Except.error e
              | Except.ok l => accAdjustLoop rest (dictSet d field (PyValue.list l)) unmapped
        else
          accAdjustLoop rest d
            (if unmapped = "" then field else unmapped ++ ", " ++ field)
      else
        accAdjustLoop rest d unmapped

/-- data.TinkAccount.adjust_data: prune fields outside the entity field
tuple, run the remapping loop, inject payloadCreated with the current
timestamp (parameter now) when it is among the entity fields, then raise
RuntimeError when any field needed an unimplemented mapping. -/
def TinkAccount.adjust_data (fields : List String) (d : Data) (now : String) :
    Except PyError Data :=
  let d1 := d.filter (fun kv => fields.contains kv.1)
  match accAdjustLoop fields d1 "" with
  | Except.error e => Except.error e
  | Except.ok (d2, unmapped) =>
      let d3 :=
        if fields.contains "payloadCreated" then
          dictSet d2 "payloadCreated" (PyValue.str now)
        else
          d2
      if unmapped ≠ "" then
        Except.error (PyError.RuntimeErrorUnmapped unmapped)
      else
        Except.ok d3

/-- data.TinkEntity: entity kind, field-to-value data, entity field tuple,
and the external user id captured from the raw data. -/
structure TinkEntity where
  entity_type : EntityType
  data : Data
  fields : List String
  ext_user_id : Option PyValue
deriving DecidableEq

/-- First entity field missing from the data: the field whose check in
data.TinkEntity.init raises the AttributeError naming it. -/
def firstMissing (fields : List String) (d : Data) : Option String :=
  fields.find? (fun f => (d.lookup f).isNone)

/-- data.TinkEntity.init: captures the external user id from the raw data,
runs the kind-specific adjustment, then checks every entity field is present
in the (adjusted, shared) data and raises an AttributeError naming the first
missing field otherwise. -/
def TinkEntity.init (entity_type : EntityType)
    (adjust : Data → Except PyError Data) (entity_data : Data)
    (fields : List String) : Except PyError TinkEntity :=
  let ext := entity_data.lookup "userExternalId"
  match adjust entity_data with
  | Except.error e => Except.error e
  | Except.ok d =>
      match firstMissing fields d with
      | some f => Except.error (PyError.AttributeFieldError f)
      | none =>
          Except.ok
            { entity_type := entity_type
              data := d
              fields := fields
              ext_user_id := ext }

/-- data.TinkUser.init: user adjustment is a no-op (adjust_data is pass). -/
def TinkUser.init (user_data : Data) (fields : List String) :
    Except PyError TinkEntity :=
  TinkEntity.init EntityType.User Except.ok user_data fields

/-- data.TinkAccount.init. -/
def TinkAccount.init (acc_data : Data) (fields : List String) (now : String) :
    Except PyError TinkEntity :=
  TinkEntity.init EntityType.Account
    (fun d => TinkAccount.adjust_data fields d now) acc_data fields

/-- data.TinkEntityList: ordered collection of entities of one kind. -/
structure TinkEntityList where
  entity_type : EntityType
  entities : List TinkEntity
deriving DecidableEq

/-- Result of data.TinkEntityList.get_entities: Python returns either the
list of wrapped TinkEntity objects or a list of raw data dictionaries. -/
inductive GetEntitiesResult where
  | objects (l : List TinkEntity)
  | dicts (l : List Data)
deriving DecidableEq

/-- The filter condition entity.ext_user_id == ext_user_id of
data.TinkEntityList.get_entities (Python == between the captured value and
the given string). -/
def extMatches (e : TinkEntity) (ext_user_id : String) : Bool :=
  match e.ext_user_id with
  | some (PyValue.str s) => s = ext_user_id
  | _ => false

/-- data.TinkEntityList.get_entities: with a falsy ext_user_id (Python None
or the empty string) returns the wrapped entities themselves; otherwise, for
User and Account kinds, the raw data dictionaries of the matching entities;
for other kinds the accumulator list stays empty. -/
def TinkEntityList.get_entities (self : TinkEntityList)
    (ext_user_id : Option String) : GetEntitiesResult :=
  match ext_user_id with
  | none => GetEntitiesResult.objects self.entities
  | some s =>
      if s = "" then
        GetEntitiesResult.objects self.entities
      else if self.entity_type = EntityType.User ∨ self.entity_type = EntityType.Account then
        GetEntitiesResult.dicts
          ((self.entities.filter (fun e => extMatches e s)).map (fun e => e.data))
      else
        GetEntitiesResult.dicts []

/-! ### Castlight result merging (castlight.CastlightAPIv1) -/

/-- castlight.CastlightAPIv1.fieldnames_response. -/
def castlightFieldnamesResponse : List String :=
  ["categorisation_method", "category", "low_confidence", "probability", "subcategory"]

/-- One step of the inner loop of castlight.CastlightAPIv1.get_result_data:
a declared response field present in the classification is written into the
row, otherwise the row is unchanged. -/
def mergeStep (cls : Data) (r : Data) (field : String) : Data :=
  match cls.lookup field with
  | some v => dictSet r field v
  | none => r

/-- The inner loop of castlight.CastlightAPIv1.get_result_data: every
declared response field present in the i-th classification is written into
the i-th row. -/
def mergeRow (row : Data) (cls : Data) : Data :=
  castlightFieldnamesResponse.foldl (mergeStep cls) row

/-- castlight.CastlightAPIv1.get_result_data: looks up the classifications
array (KeyError when absent); when its length differs from the number of
input transactions the code evaluates ex.ResponseMissingEntries, a name the
exceptions module does not define (it defines ResponseMissingEntriesError),
so the lookup itself raises AttributeError on the module; otherwise each
classification is merged into the input row of the same index. -/
def get_result_data (transactions : List Data)
    (classifications? : Option (List Data)) : Except PyError (List Data) :=
  match classifications? with
  | none => Except.error (PyError.KeyError "classifications")
  | some cls =>
      if transactions.length ≠ cls.length then
        Except.error (PyError.ModuleAttributeError "ResponseMissingEntries")
      else
        Except.ok (List.zipWith mergeRow transactions cls)

/-! ## Supporting lemmas -/

lemma count_eq_length_iff (l : TinkModelResultList) :
    l.count TinkModelResultStatus.Success = l.results.length ↔
      ∀ r ∈ l.results, r.status = StatusValue.enum TinkModelResultStatus.Success := by
  unfold TinkModelResultList.count
  constructor
  · intro h r hr
    have hself := (List.filter_sublist l.results).eq_of_length h
    have hall := List.filter_eq_self.mp hself r hr
    exact eq_of_beq hall
  · intro h
    rw [List.filter_eq_self.mpr]
    intro a ha
    exact beq_of_eq (h a ha)

lemma status_success_iff (l : TinkModelResultList) :
    l.status = TinkModelResultStatus.Success ↔
      ∀ r ∈ l.results, r.status = StatusValue.enum TinkModelResultStatus.Success := by
  rw [TinkModelResultList.status]
  by_cases h : l.count TinkModelResultStatus.Success = l.results.length
  · rw [if_pos h]
    exact iff_of_true rfl ((count_eq_length_iff l).mp h)
  · rw [if_neg h]
    refine iff_of_false (by decide) ?_
    intro hall
    exact h ((count_eq_length_iff l).mpr hall)

lemma status_cases (l : TinkModelResultList) :
    l.status = TinkModelResultStatus.Success ∨ l.status = TinkModelResultStatus.Warning := by
  rw [TinkModelResultList.status]
  by_cases h : l.count TinkModelResultStatus.Success = l.results.length
  · exact Or.inl (by rw [if_pos h])
  · exact Or.inr (by rw [if_neg h])

lemma status_warning_of_mem (l : TinkModelResultList) (r : TinkModelResult)
    (hr : r ∈ l.results)
    (hs : r.status ≠ StatusValue.enum TinkModelResultStatus.Success) :
    l.status = TinkModelResultStatus.Warning := by
  rcases status_cases l with h | h
  · exact absurd ((status_success_iff l).mp h r hr) hs
  · exact h

lemma mem_results_append (l : TinkModelResultList)
    (x : Sum TinkModelResult TinkModelResultList) (r : TinkModelResult)
    (h : r ∈ l.results) : r ∈ (l.append x).results := by
  cases x <;> simp [TinkModelResultList.append, h]

lemma mem_results_foldl_append (rest : List (Sum TinkModelResult TinkModelResultList))
    (l : TinkModelResultList) (r : TinkModelResult) (h : r ∈ l.results) :
    r ∈ (rest.foldl TinkModelResultList.append l).results := by
  induction rest generalizing l with
  | nil => exact h
  | cons x xs ih => exact ih _ (mem_results_append l x r h)

lemma foldl_append_singles (rs : List TinkModelResult) (S : TinkModelResultList) :
    (rs.foldl (fun acc x => acc.append (Sum.inl x)) S).results = S.results ++ rs := by
  induction rs generalizing S with
  | nil => simp
  | cons a as ih =>
      rw [List.foldl_cons, ih]
      simp [TinkModelResultList.append]

/-- An Error-status result used to instantiate the universally quantified
theorems at a concrete input. -/
def sampleErrorResult : TinkModelResult :=
  TinkModelResult.init (StatusValue.enum TinkModelResultStatus.Error)
    FlowResponse.dummy "" "" false

/-- A Success-status result used to instantiate the universally quantified
theorems at a concrete input. -/
def sampleSuccessResult : TinkModelResult :=
  TinkModelResult.init (StatusValue.enum TinkModelResultStatus.Success)
    FlowResponse.dummy "" "" false

/-- The empty result list, as constructed by TinkModelResultList.init with
no initial result. -/
def emptyResultList : TinkModelResultList := TinkModelResultList.init none "" ""

/-! ## Claim theorems -/

/-- C3: for every Result Sequence, status() returns Success if and only if
every contained result has status Success, and otherwise returns Warning;
appending a non-Success result makes the status Warning, and no sequence of
later appends (of single results or of whole lists) can return it to
Success. -/
theorem resultList_status_success_iff_all (l : TinkModelResultList)
    (r : TinkModelResult) :
    (l.status = TinkModelResultStatus.Success ↔
      ∀ x ∈ l.results, x.status = StatusValue.enum TinkModelResultStatus.Success)
    ∧ (l.status = TinkModelResultStatus.Success ∨
        l.status = TinkModelResultStatus.Warning)
    ∧ (r.status ≠ StatusValue.enum TinkModelResultStatus.Success →
        ∀ rest : List (Sum TinkModelResult TinkModelResultList),
          (rest.foldl TinkModelResultList.append
            (l.append (Sum.inl r))).status = TinkModelResultStatus.Warning) := by
  refine ⟨status_success_iff l, status_cases l, fun hs rest => ?_⟩
  refine status_warning_of_mem _ r (mem_results_foldl_append rest _ r ?_) hs
  simp [TinkModelResultList.append]

/-- C3 witness: concrete instance with one Success result, then an Error
result appended, then one more Success result appended. -/
theorem resultList_status_success_iff_all_witness :
    (sampleErrorResult.status ≠ StatusValue.enum TinkModelResultStatus.Success)
    ∧ (([Sum.inl sampleSuccessResult].foldl TinkModelResultList.append
        ((emptyResultList.append (Sum.inl sampleSuccessResult)).append
          (Sum.inl sampleErrorResult))).status = TinkModelResultStatus.Warning) :=
  ⟨by decide,
    (resultList_status_success_iff_all
      (emptyResultList.append (Sum.inl sampleSuccessResult)) sampleErrorResult).2.2
      (by decide) [Sum.inl sampleSuccessResult]⟩

/-- C4: appending another Result Sequence T flattens in exactly T's results,
in order, the same as appending each of them individually; appending a single
result adds exactly that result at the end. -/
theorem resultList_append_flattens (S T : TinkModelResultList) (r : TinkModelResult) :
    (S.append (Sum.inr T)).results =
      (T.results.foldl (fun acc x => acc.append (Sum.inl x)) S).results
    ∧ (S.append (Sum.inl r)).results = S.results ++ [r] := by
  constructor
  · rw [foldl_append_singles]
    rfl
  · rfl

/-- C8: a Result Sequence containing zero results has overall status
Success (the all-success rule holds vacuously). -/
theorem resultList_empty_status_success (l : TinkModelResultList)
    (h : l.results = []) : l.status = TinkModelResultStatus.Success := by
  simp [TinkModelResultList.status, TinkModelResultList.count, h]

/-- C8 witness: the Result Sequence freshly constructed with no initial
result has status Success. -/
theorem resultList_empty_status_success_witness :
    emptyResultList.results = []
    ∧ emptyResultList.status = TinkModelResultStatus.Success :=
  ⟨rfl, resultList_empty_status_success emptyResultList rfl⟩

/-- C9: on the empty Result Sequence, first() and last() both return the
placeholder result constructed with the plain string Unbound as status, so
the returned status is not any of the five TinkModelResultStatus members. -/
theorem resultList_empty_first_last_unbound (l : TinkModelResultList)
    (h : l.results = []) :
    l.first.status = StatusValue.str "Unbound"
    ∧ l.last.status = StatusValue.str "Unbound"
    ∧ (∀ s : TinkModelResultStatus,
        l.first.status ≠ StatusValue.enum s ∧ l.last.status ≠ StatusValue.enum s) := by
  refine ⟨?_, ?_, fun s => ⟨?_, ?_⟩⟩ <;>
    simp [TinkModelResultList.first, TinkModelResultList.last, h, TinkModelResult.init]

/-- C9 witness: first() and last() of the freshly constructed empty Result
Sequence carry the string status Unbound, which is not the Exception
member. -/
theorem resultList_empty_first_last_unbound_witness :
    emptyResultList.results = []
    ∧ emptyResultList.first.status = StatusValue.str "Unbound"
    ∧ emptyResultList.first.status ≠ StatusValue.enum TinkModelResultStatus.Exception :=
  ⟨rfl, (resultList_empty_first_last_unbound emptyResultList rfl).1,
    ((resultList_empty_first_last_unbound emptyResultList rfl).2.2
      TinkModelResultStatus.Exception).1⟩

/-- C6: band test of api.TinkAPIResponse.http_status.  The Python membership
test uses range(a, b), which excludes b, so the upper bound of every band is
excluded: 299, 499 and 599 test False although the claim (and the
HTTPStatusCode docstrings) declare the bands inclusive of them.  The general
characterization of each band as its half-open interval is included. -/
theorem http_status_band_off_by_one :
    http_status 299 (some HTTPStatusCode.Code2xx) = false
    ∧ http_status 499 (some HTTPStatusCode.Code4xx) = false
    ∧ http_status 599 (some HTTPStatusCode.Code5xx) = false
    ∧ http_status 200 (some HTTPStatusCode.Code2xx) = true
    ∧ http_status 298 (some HTTPStatusCode.Code2xx) = true
    ∧ http_status 400 (some HTTPStatusCode.Code4xx) = true
    ∧ http_status 498 (some HTTPStatusCode.Code4xx) = true
    ∧ http_status 500 (some HTTPStatusCode.Code5xx) = true
    ∧ http_status 598 (some HTTPStatusCode.Code5xx) = true
    ∧ (∀ c : Int, http_status c (some HTTPStatusCode.Code2xx) =
        decide (200 ≤ c ∧ c < 299))
    ∧ (∀ c : Int, http_status c (some HTTPStatusCode.Code4xx) =
        decide (400 ≤ c ∧ c < 499))
    ∧ (∀ c : Int, http_status c (some HTTPStatusCode.Code5xx) =
        decide (500 ≤ c ∧ c < 599)) := by
  refine ⟨by decide, by decide, by decide, by decide, by decide, by decide,
    by decide, by decide, by decide, ?_, ?_, ?_⟩
  · intro c
    by_cases h : 200 ≤ c ∧ c < 299 <;> simp [http_status, h]
  · intro c
    by_cases h : 400 ≤ c ∧ c < 499 <;> simp [http_status, h]
  · intro c
    by_cases h : 500 ≤ c ∧ c < 599 <;> simp [http_status, h]

/-- Network observations of a run where the authorize-client endpoint
answers 500 and the other two endpoints would answer successfully. -/
def envStep1Fails : OAuthEnv :=
  { authorize_status := 500
    authorize_json := []
    grant_status := 200
    grant_json := [("code", "c1")]
    token_status := 200
    token_json := [("access_token", "tokU")] }

/-- Network observations of a run where the authorize-client endpoint
succeeds and the grant endpoint answers 500 (not the 404 special case). -/
def envStep2Fails : OAuthEnv :=
  { envStep1Fails with
    authorize_status := 200
    authorize_json := [("access_token", "tokA")]
    grant_status := 500
    grant_json := [] }

/-- Network observations of a run where only the final token-exchange
endpoint fails (with 503). -/
def envStep3Fails : OAuthEnv :=
  { envStep2Fails with
    grant_status := 200
    grant_json := [("code", "c1")]
    token_status := 503 }

/-- C2 (evaluation of the code at the failing inputs): when step 1 fails
with a non-2xx status, the flow stops with UnboundLocalError on
client_access_token before the grant call is ever made; when step 2 fails
with a non-404 error status, the flow stops with UnboundLocalError on code
before the token-exchange call is ever made.  Only a failure confined to
step 3 leaves all three calls performed. -/
theorem flow_failed_step_unbound_local :
    TinkModel.oauth2_client_credentials_flow envStep1Fails (some "u1") =
      { trace := [ApiCall.authorizeClientAccess]
        outcome := Except.error (PyError.UnboundLocalError "client_access_token") }
    ∧ TinkModel.oauth2_client_credentials_flow envStep2Fails (some "u1") =
      { trace := [ApiCall.authorizeClientAccess, ApiCall.grantUserAccess]
        outcome := Except.error (PyError.UnboundLocalError "code") }
    ∧ (TinkModel.oauth2_client_credentials_flow envStep3Fails (some "u1")).trace =
        [ApiCall.authorizeClientAccess, ApiCall.grantUserAccess,
          ApiCall.getOauthAccessToken]
    ∧ (TinkModel.oauth2_client_credentials_flow envStep3Fails
        (some "u1")).outcome.toOption.map (fun rl => rl.results.length) = some 4 :=
  ⟨by decide, by decide, by decide, by decide⟩

/-- Network observations of a run where the authorize-client endpoint
succeeds and the grant endpoint answers 404 (user does not exist). -/
def envGrant404 : OAuthEnv :=
  { authorize_status := 200
    authorize_json := [("access_token", "tokA")]
    grant_status := 404
    grant_json := [("errorMessage", "user not found")]
    token_status := 200
    token_json := [("access_token", "tokU")] }

/-- A second such run, used to instantiate the general 404 theorem. -/
def envGrant404b : OAuthEnv := { envGrant404 with authorize_json := [("access_token", "tokB")] }

/-- C1 counterexample: on a run where step 1 succeeded (the trace shows the
authorize call was performed and its outcome appended), the raised
UserNotExistingError carries a one-element Result Sequence that contains no
authorize-step result at all, so it is not the partial Result Sequence
accumulated so far by the orchestrator. -/
theorem flow_404_counterexample :
    (TinkModel.oauth2_client_credentials_flow envGrant404 (some "u1")).carriedResultList.map
        (fun rl => rl.results.length) = some 1
    ∧ (TinkModel.oauth2_client_credentials_flow envGrant404 (some "u1")).carriedResultList.map
        (fun rl => rl.results.map (fun r => r.response.isAuthToken)) = some [false]
    ∧ (TinkModel.oauth2_client_credentials_flow envGrant404 (some "u1")).trace =
        [ApiCall.authorizeClientAccess, ApiCall.grantUserAccess] :=
  ⟨by decide, by decide, by decide⟩

/-- C1 (amended): on every run where the authorize-client step passes the
2xx band test and the grant-user-access step returns 404, the flow raises
UserNotExistingError whose carried Result Sequence is the freshly built
one-element list holding only the grant step result with status Exception
(not the accumulated sequence), and the third call is never attempted. -/
theorem flow_404_raises_user_not_existing (env : OAuthEnv) (ext : Option String)
    (h2xx : 200 ≤ env.authorize_status ∧ env.authorize_status < 299)
    (h404 : env.grant_status = 404) :
    (TinkModel.oauth2_client_credentials_flow env ext).outcome =
      Except.error (PyError.UserNotExistingError (userNotExistText ext)
        (TinkModelResultList.init
          (some (TinkModelResult.init
            (StatusValue.enum TinkModelResultStatus.Exception)
            (FlowResponse.authz (OAuthService.grant_user_access env))
            "Grant user access" (userNotExistText ext) false)) "" ""))
    ∧ (TinkModel.oauth2_client_credentials_flow env ext).trace =
        [ApiCall.authorizeClientAccess, ApiCall.grantUserAccess] := by
  have hhttp : http_status env.authorize_status (some HTTPStatusCode.Code2xx) = true := by
    simp [http_status, h2xx]
  have hsc : (OAuthService.grant_user_access env).status_code = (404:Int) := h404
  have hgrant : TinkModel.grant_user_access env ext =
      Except.error (PyError.UserNotExistingError (userNotExistText ext)
        (TinkModelResultList.init
          (some (TinkModelResult.init
            (StatusValue.enum TinkModelResultStatus.Exception)
            (FlowResponse.authz (OAuthService.grant_user_access env))
            "Grant user access" (userNotExistText ext) false)) "" "")) := by
    simp only [TinkModel.grant_user_access, hsc]
    norm_num
  have hauthsc : (OAuthService.authorize_client_access env).status_code =
      env.authorize_status := by
    rw [OAuthService.authorize_client_access, mkAuthTokenResponse]
    split <;> rfl
  have hauth : (TinkModel.authorize_client env).last.status =
      StatusValue.enum TinkModelResultStatus.Success := by
    simp [TinkModel.authorize_client, hauthsc, hhttp, TinkModelResultList.init,
      TinkModelResultList.last, TinkModelResult.init]
  constructor <;>
  · simp only [TinkModel.oauth2_client_credentials_flow, hauth, hgrant]
    simp

/-- C1 witness: the amended 404 theorem instantiated on a concrete run. -/
theorem flow_404_raises_user_not_existing_witness :
    (200 ≤ envGrant404b.authorize_status ∧ envGrant404b.authorize_status < 299)
    ∧ envGrant404b.grant_status = 404
    ∧ (TinkModel.oauth2_client_credentials_flow envGrant404b (some "u9")).trace =
        [ApiCall.authorizeClientAccess, ApiCall.grantUserAccess] :=
  ⟨by decide, rfl,
    (flow_404_raises_user_not_existing envGrant404b (some "u9") (by decide) rfl).2⟩

/-! ## Entity adapter lemmas -/

lemma lookup_filter_none (d : Data) (p : String × PyValue → Bool) (k : String)
    (h : d.lookup k = none) : (d.filter p).lookup k = none := by
  induction d with
  | nil => simp
  | cons a rest ih =>
      by_cases hk : k = a.1
      · simp [List.lookup, hk] at h
      · have hb : (k == a.1) = false := by simpa using hk
        simp only [List.lookup, hb] at h
        rw [List.filter_cons]
        split
        · simp only [List.lookup, hb]
          exact ih h
        · exact ih h

lemma lookup_dictSet_self (d : Data) (k : String) (v : PyValue) :
    (dictSet d k v).lookup k = some v := by
  induction d with
  | nil => simp [dictSet]
  | cons a rest ih =>
      rw [dictSet]
      by_cases hk : a.1 = k
      · rw [if_pos hk]
        simp [List.lookup]
      · have hb : (k == a.1) = false := by simpa using Ne.symm hk
        rw [if_neg hk]
        simp only [List.lookup, hb]
        exact ih

lemma lookup_dictSet_ne (d : Data) (k k2 : String) (v : PyValue) (h : k2 ≠ k) :
    (dictSet d k v).lookup k2 = d.lookup k2 := by
  induction d with
  | nil =>
      have hb : (k2 == k) = false := by simpa using h
      simp [dictSet, List.lookup, hb]
  | cons a rest ih =>
      rw [dictSet]
      by_cases hk : a.1 = k
      · have hb : (k2 == k) = false := by simpa using h
        rw [if_pos hk]
        subst hk
        simp only [List.lookup, hb]
      · rw [if_neg hk]
        by_cases h2 : k2 = a.1
        · have hb : (k2 == a.1) = true := by simpa using h2
          simp only [List.lookup, hb]
        · have hb : (k2 == a.1) = false := by simpa using h2
          simp only [List.lookup, hb]
          exact ih

lemma init_ok_fields_present (t : EntityType) (adjust : Data → Except PyError Data)
    (d : Data) (fields : List String) (e : TinkEntity)
    (h : TinkEntity.init t adjust d fields = Except.ok e) :
    ∀ f ∈ fields, ((e.data).lookup f).isSome = true := by
  unfold TinkEntity.init at h
  cases hadj : adjust d with
  | error err => rw [hadj] at h; exact absurd h (by simp)
  | ok d2 =>
      rw [hadj] at h
      dsimp only [] at h
      cases hfm : firstMissing fields d2 with
      | some f => rw [hfm] at h; exact absurd h (by simp)
      | none =>
          rw [hfm] at h
          dsimp only [] at h
          injection h with h2
          subst h2
          intro f hf
          have hp := List.find?_eq_none.mp hfm f hf
          cases hl : d2.lookup f with
          | none => rw [hl] at hp; simp at hp
          | some v => simp [hl]

lemma user_missing_field (d : Data) (fields : List String) (f : String)
    (h : firstMissing fields d = some f) :
    TinkUser.init d fields = Except.error (PyError.AttributeFieldError f) := by
  simp [TinkUser.init, TinkEntity.init, h]

lemma accAdjustLoop_src_no_flags (d : Data) (h : d.lookup "flags" = none) :
    accAdjustLoop fields_acc_src_in d "" = Except.error (PyError.KeyError "flags") := by
  have hstep : accAdjustLoop fields_acc_src_in d "" =
      match d.lookup "flags" with
      | none => Except.error (PyError.KeyError "flags")
      | some v =>
          match pySplitComma v with
          | Except.error e => Except.error e
          | Except.ok l =>
              accAdjustLoop ["number", "reservedAmount", "payloadTags"]
                (dictSet d "flags" (PyValue.list l)) "" := rfl
  rw [hstep, h]

lemma account_missing_flags (d : Data) (now : String)
    (h : d.lookup "flags" = none) :
    TinkAccount.init d fields_acc_src_in now =
      Except.error (PyError.KeyError "flags") := by
  have h1 : (d.filter (fun kv => fields_acc_src_in.contains kv.1)).lookup "flags" = none :=
    lookup_filter_none d _ _ h
  have hloop := accAdjustLoop_src_no_flags _ h1
  simp only [TinkAccount.init, TinkEntity.init, TinkAccount.adjust_data, hloop]

/-- Raw data of an input user record missing the mandatory label field. -/
def userRowNoLabel : Data :=
  [("userExternalId", PyValue.str "u1"), ("market", PyValue.str "SE"),
   ("locale", PyValue.str "en_US")]

/-- Raw data of an input account record missing the mandatory flags field
(all other mandatory source fields present). -/
def accRowNoFlags : Data :=
  [("userExternalId", PyValue.str "u1"), ("externalId", PyValue.str "a1"),
   ("availableCredit", PyValue.str "0"), ("balance", PyValue.str "5"),
   ("name", PyValue.str "checking"), ("type", PyValue.str "CHECKING"),
   ("number", PyValue.str "7"), ("reservedAmount", PyValue.str "0"),
   ("payloadTags", PyValue.str "t1,t2")]

/-- C5 (evaluation of the code, with the failing account input): whenever
construction succeeds every mandatory field is present in the entity data
(user and account kinds); for users, a missing mandatory field makes
construction fail with the AttributeError naming the first missing field;
but for accounts, a record missing the remapped flags field makes the
adjustment itself fail with a KeyError, not with the field-validation
AttributeError the claim (and the constructor docstring) promise. -/
theorem entity_mandatory_field_validation (d : Data) (fields : List String)
    (now : String) (e : TinkEntity) (f : String) :
    (TinkUser.init d fields = Except.ok e → ∀ g ∈ fields, ((e.data).lookup g).isSome = true)
    ∧ (TinkAccount.init d fields now = Except.ok e →
        ∀ g ∈ fields, ((e.data).lookup g).isSome = true)
    ∧ (firstMissing fields d = some f →
        TinkUser.init d fields = Except.error (PyError.AttributeFieldError f))
    ∧ (d.lookup "flags" = none →
        TinkAccount.init d fields_acc_src_in now =
          Except.error (PyError.KeyError "flags"))
    ∧ TinkAccount.init accRowNoFlags fields_acc_src_in now =
        Except.error (PyError.KeyError "flags") :=
  ⟨fun h => init_ok_fields_present EntityType.User Except.ok d fields e h,
    fun h => init_ok_fields_present EntityType.Account _ d fields e h,
    fun h => user_missing_field d fields f h,
    fun h => account_missing_flags d now h,
    account_missing_flags accRowNoFlags now (by decide)⟩

/-- C5 witness: the user part instantiated on a record missing label, and
the account part instantiated on the concrete record missing flags. -/
theorem entity_mandatory_field_validation_witness :
    firstMissing fields_user_src_in userRowNoLabel = some "label"
    ∧ TinkUser.init userRowNoLabel fields_user_src_in =
        Except.error (PyError.AttributeFieldError "label")
    ∧ accRowNoFlags.lookup "flags" = none
    ∧ TinkAccount.init accRowNoFlags fields_acc_src_in "2020-01-01" =
        Except.error (PyError.KeyError "flags") :=
  ⟨by decide,
    (entity_mandatory_field_validation userRowNoLabel fields_user_src_in "x"
      (TinkEntity.mk EntityType.User [] [] none) "label").2.2.1 (by decide),
    by decide,
    (entity_mandatory_field_validation accRowNoFlags fields_acc_src_in "2020-01-01"
      (TinkEntity.mk EntityType.User [] [] none) "label").2.2.2.1 (by decide)⟩

/-- A concrete user entity carrying external user id u1. -/
def entityU1 : TinkEntity :=
  { entity_type := EntityType.User
    data := [("userExternalId", PyValue.str "u1"), ("label", PyValue.str "l"),
             ("market", PyValue.str "SE"), ("locale", PyValue.str "en_US")]
    fields := fields_user_src_in
    ext_user_id := some (PyValue.str "u1") }

/-- A concrete non-empty entity list of user kind. -/
def userList1 : TinkEntityList :=
  { entity_type := EntityType.User, entities := [entityU1] }

/-- C10 counterexample: calling get_entities with the empty string as
external user id (a provided id, not the None default) returns the wrapped
TinkEntity objects themselves, exactly like the unfiltered call, and not a
list of raw data dictionaries: Python treats the empty string as falsy. -/
theorem get_entities_empty_string_counterexample :
    userList1.get_entities (some "") = GetEntitiesResult.objects [entityU1]
    ∧ userList1.get_entities none = GetEntitiesResult.objects [entityU1]
    ∧ userList1.get_entities (some "") ≠ GetEntitiesResult.dicts [entityU1.data] :=
  ⟨by decide, by decide, by decide⟩

/-- C10 (amended): for a NON-EMPTY external user id the filtered call
returns the raw data dictionaries of the matching entities (the empty list
for kinds other than User and Account), and never the wrapped objects; the
call without an id returns the wrapped TinkEntity objects themselves. -/
theorem get_entities_filtered_returns_dicts (l : TinkEntityList) (s : String)
    (hs : s ≠ "") :
    l.get_entities none = GetEntitiesResult.objects l.entities
    ∧ (l.entity_type = EntityType.User ∨ l.entity_type = EntityType.Account →
        l.get_entities (some s) = GetEntitiesResult.dicts
          ((l.entities.filter (fun e => extMatches e s)).map (fun e => e.data)))
    ∧ (¬(l.entity_type = EntityType.User ∨ l.entity_type = EntityType.Account) →
        l.get_entities (some s) = GetEntitiesResult.dicts [])
    ∧ (∃ ds, l.get_entities (some s) = GetEntitiesResult.dicts ds)
    ∧ (∀ es, l.get_entities (some s) ≠ GetEntitiesResult.objects es) := by
  refine ⟨rfl, fun hk => ?_, fun hk => ?_, ?_, ?_⟩
  · simp [TinkEntityList.get_entities, hs, hk]
  · simp [TinkEntityList.get_entities, hs, hk]
  · by_cases hk : l.entity_type = EntityType.User ∨ l.entity_type = EntityType.Account
    · exact ⟨(l.entities.filter (fun e => extMatches e s)).map (fun e => e.data),
        by simp [TinkEntityList.get_entities, hs, hk]⟩
    · exact ⟨[], by simp [TinkEntityList.get_entities, hs, hk]⟩
  · intro es h
    by_cases hk : l.entity_type = EntityType.User ∨ l.entity_type = EntityType.Account <;>
      · simp [TinkEntityList.get_entities, hs, hk] at h

/-- C10 witness: the amended theorem instantiated on the concrete one-user
list with the non-empty id u1. -/
theorem get_entities_filtered_returns_dicts_witness :
    ("u1" ≠ "") ∧
      userList1.get_entities (some "u1") = GetEntitiesResult.dicts [entityU1.data] :=
  ⟨by decide,
    ((get_entities_filtered_returns_dicts userList1 "u1" (by decide)).2.1
      (Or.inl rfl)).trans (by decide)⟩

/-! ## Castlight merge lemmas -/

lemma mergeFold_not_mem (fields : List String) (cls : Data) :
    ∀ (row : Data) (f : String), ¬ f ∈ fields →
      (fields.foldl (mergeStep cls) row).lookup f = row.lookup f := by
  induction fields with
  | nil => intro row f _; rfl
  | cons a as ih =>
      intro row f hf
      have hfa : f ≠ a := fun hh => hf (hh ▸ List.mem_cons_self a as)
      have hfas : ¬ f ∈ as := fun hh => hf (List.mem_cons_of_mem a hh)
      rw [List.foldl_cons]
      cases hcl : cls.lookup a with
      | none =>
          simp only [mergeStep, hcl]
          exact ih row f hfas
      | some v =>
          simp only [mergeStep, hcl]
          rw [ih _ f hfas]
          exact lookup_dictSet_ne row a f v hfa

lemma mergeFold_mem (fields : List String) (cls : Data) :
    ∀ (row : Data) (f : String) (v : PyValue), fields.Nodup → f ∈ fields →
      cls.lookup f = some v →
      (fields.foldl (mergeStep cls) row).lookup f = some v := by
  induction fields with
  | nil => intro _ f _ _ hmem _; exact absurd hmem (by simp)
  | cons a as ih =>
      intro row f v hnd hmem hcl
      rw [List.foldl_cons]
      by_cases hfa : f = a
      · subst hfa
        have hnotin : ¬ f ∈ as := (List.nodup_cons.mp hnd).1
        simp only [mergeStep, hcl]
        rw [mergeFold_not_mem as cls _ f hnotin]
        exact lookup_dictSet_self row f v
      · have hfin : f ∈ as := (List.mem_cons.mp hmem).resolve_left hfa
        have hnd2 := (List.nodup_cons.mp hnd).2
        cases hcla : cls.lookup a with
        | none =>
            simp only [mergeStep, hcla]
            exact ih row f v hnd2 hfin hcl
        | some w =>
            simp only [mergeStep, hcla]
            exact ih _ f v hnd2 hfin hcl

/-- The transaction row of the spec scenario (type DEBIT, description
Coffee, amount 3.50). -/
def txRowCoffee : Data :=
  [("type", PyValue.str "DEBIT"), ("description", PyValue.str "Coffee"),
   ("amount", PyValue.str "3.50")]

/-- A classification answering the scenario row. -/
def clsRowCoffee : Data :=
  [("category", PyValue.str "Food and Drink"),
   ("subcategory", PyValue.str "Coffee Shops"),
   ("probability", PyValue.str "0.93")]

/-- C7 (evaluation of the code, with the failing length-mismatch input):
with equal lengths, the merge returns the input rows with, per index, every
declared response field present in that classification written into the row
and every other field left unchanged; with differing lengths the code does
not raise the missing-response-entries error: looking up the misspelled
name ResponseMissingEntries on the exceptions module raises AttributeError
instead (the module defines ResponseMissingEntriesError). -/
theorem castlight_get_result_data_merges (tx cls : List Data) (row c : Data)
    (f : String) (v : PyValue) :
    (tx.length = cls.length →
        get_result_data tx (some cls) = Except.ok (List.zipWith mergeRow tx cls))
    ∧ (f ∈ castlightFieldnamesResponse → c.lookup f = some v →
        (mergeRow row c).lookup f = some v)
    ∧ (¬ f ∈ castlightFieldnamesResponse →
        (mergeRow row c).lookup f = row.lookup f)
    ∧ get_result_data [txRowCoffee] (some []) =
        Except.error (PyError.ModuleAttributeError "ResponseMissingEntries")
    ∧ get_result_data [txRowCoffee] none =
        Except.error (PyError.KeyError "classifications") := by
  refine ⟨fun hlen => ?_, fun hmem hcl => ?_, fun hmem => ?_, by decide, rfl⟩
  · simp [get_result_data, hlen]
  · exact mergeFold_mem castlightFieldnamesResponse c row f v (by decide) hmem hcl
  · exact mergeFold_not_mem castlightFieldnamesResponse c row f hmem

/-- C7 witness: the merge instantiated on the scenario row and a matching
one-element classifications array; the category field of the merged row is
the one from the classification and the description field is untouched. -/
theorem castlight_get_result_data_merges_witness :
    ([txRowCoffee].length = [clsRowCoffee].length)
    ∧ get_result_data [txRowCoffee] (some [clsRowCoffee]) =
        Except.ok (List.zipWith mergeRow [txRowCoffee] [clsRowCoffee])
    ∧ ("category" ∈ castlightFieldnamesResponse)
    ∧ clsRowCoffee.lookup "category" = some (PyValue.str "Food and Drink")
    ∧ (mergeRow txRowCoffee clsRowCoffee).lookup "category" =
        some (PyValue.str "Food and Drink")
    ∧ (mergeRow txRowCoffee clsRowCoffee).lookup "description" =
        some (PyValue.str "Coffee") :=
  ⟨rfl,
    (castlight_get_result_data_merges [txRowCoffee] [clsRowCoffee] [] [] "x"
      (PyValue.str "x")).1 rfl,
    by decide, by decide,
    (castlight_get_result_data_merges [] [] txRowCoffee clsRowCoffee "category"
      (PyValue.str "Food and Drink")).2.1 (by decide) (by decide),
    by decide⟩

end Categorisation
